import Mathlib

/-!
Shallow embedding of `main.py` of the telegram-bot-docker repository.

The program keeps two process-global, user-keyed tables:
`conversations = defaultdict(lambda: [])` (per-user conversation history) and
`default_model_dict = defaultdict(lambda: gemini_pro_model)` (per-user model
choice).  The handlers `process_text`, `process_photo`, `clear` and `switch`
read and update those tables and emit transport effects (replies, edits) and
backend generation calls.  We model the two tables as total functions from
user id (treating the defaultdict default as the value of absent keys), the
backend outcome as an `Option String` parameter (`some t` = the call returned
text `t`, `none` = the call raised, landing in the handler's `except` block),
and the observable actions of a handler as a list of `Effect`s in program
order.  Python's list aliasing in `process_text` (the local name `history`
first aliases the stored list, mutates it in place, and is then rebound by
the slice `history = history[-MAX_HISTORY:]` to a fresh copy) is modelled
explicitly by tracking the stored list and the local value separately.
-/

/-- Role tag of a conversation turn, as in the dicts
`{"role": "user"|"model", "parts": [...]}` built by `process_text`. -/
inductive Role where
  | user
  | model
deriving DecidableEq

/-- One history entry: `{"role": r, "parts": parts}`. -/
structure Turn where
  role : Role
  parts : List String
deriving DecidableEq

/-- The two backend profiles: `gemini_flash_model` (the "fast" profile) and
`gemini_pro_model` (the "pro"/"capable" profile). -/
inductive ModelChoice where
  | flash
  | pro
deriving DecidableEq

/-- Contents handed to the generation backend: either a chat-session history
(text flow) or a multipart body `{"parts": [{"mime_type": ..., "data": ...},
{"text": ...}]}` (photo flow).  Image bytes are modelled as a list of byte
values. -/
inductive GenContents where
  | chat (turns : List Turn)
  | multipart (mimeType : String) (data : List Nat) (text : String)
deriving DecidableEq

/-- One observable action of a handler, in program order:
`sendReply` = a new message sent to the chat (`reply_text`),
`editMessage` = an in-place edit of an earlier message (`edit_text` /
`edit_message_text`), and `generate` = a call into the generation backend,
recording the model, the submitted contents, and whether the blocking call
was dispatched through `loop.run_in_executor` (`viaExecutor = true`) or made
directly on the event loop (`viaExecutor = false`). -/
inductive Effect where
  | sendReply (text : String)
  | editMessage (text : String)
  | generate (model : ModelChoice) (contents : GenContents) (viaExecutor : Bool)
deriving DecidableEq

abbrev UserId := Nat

/-- The process-global mutable state: `conversations` and
`default_model_dict`, both `defaultdict`s keyed by user id. -/
structure BotState where
  conversations : UserId → List Turn
  modelDict : UserId → ModelChoice

attribute [ext] BotState

/-- The fresh-process state: `conversations` defaults every user to `[]`,
`default_model_dict` defaults every user to `gemini_pro_model`. -/
def initState : BotState :=
  { conversations := fun _ => [], modelDict := fun _ => ModelChoice.pro }

/-- `MAX_HISTORY = 50`. -/
def MAX_HISTORY : Nat := 50

/-- `GENERATING_RESPONSE`. -/
def GENERATING_RESPONSE : String := "🤖Generating🤖"

/-- `ERROR_INFO`. -/
def ERROR_INFO : String :=
  "⚠️⚠️⚠️\nSomething went wrong !\nPlease try to change your prompt or contact the admin !"

/-- Python `str.strip()`: removes leading and trailing whitespace. -/
def pyStrip (s : String) : String :=
  String.mk (((s.data.dropWhile Char.isWhitespace).reverse.dropWhile Char.isWhitespace).reverse)

/-- Python slicing `l[-n:]` for `n > 0`: the last `n` elements of `l`
(the whole list when `l` is shorter than `n`). -/
def sliceLast (n : Nat) (l : List Turn) : List Turn :=
  l.drop (l.length - n)

/-- The contents the backend receives on the text path.  Models the
`google.generativeai` chat-session semantics used at lines 154-156:
`model.start_chat(history=h)` seeds the session history with `h`, and
`chat_session.send_message(m)` appends `m` as one more user turn to the
session history and submits the whole accumulated history to the backend. -/
def submitted_contents (history : List Turn) (message : String) : List Turn :=
  history ++ [⟨Role.user, [message]⟩]

/-- `async_generate_content(model, contents)`: wraps
`model.generate_content(contents)` in `loop.run_in_executor(None, generate)`,
so this generation call runs on the executor worker pool, off the event
loop. -/
def async_generate_content (model : ModelChoice) (contents : GenContents) : Effect :=
  Effect.generate model contents true

/-- `process_text(update, context)` for a message `userMessage` from user
`uid`, with backend outcome `genResult`.  Faithful to the aliasing in the
source: `history = conversations[user_id]` aliases the stored list, so
`history.append({"role": "user", ...})` mutates the stored entry in place
(`stored1`); `history = history[-MAX_HISTORY:]` then rebinds the local name
to a fresh truncated copy, leaving the stored entry untouched.  On success
the model turn is appended to that truncated copy and the copy is stored
back (`conversations[user_id] = history`); on failure (the `except` block)
the store still holds `stored1` and `ERROR_INFO` is sent as a new reply.
The generation call `chat_session.send_message(user_message)` at line 156 is
made directly in the handler, not through `async_generate_content`, hence
`viaExecutor = false`. -/
def process_text (s : BotState) (uid : UserId) (userMessage : String)
    (genResult : Option String) : BotState × List Effect :=
  let stored := s.conversations uid
  let model := s.modelDict uid
  let stored1 := stored ++ [⟨Role.user, [pyStrip userMessage]⟩]
  let history := sliceLast MAX_HISTORY stored1
  let contents := submitted_contents history userMessage
  match genResult with
  | some respText =>
      let history2 := history ++ [⟨Role.model, [pyStrip respText]⟩]
      ({ s with conversations := fun v => if v = uid then history2 else s.conversations v },
       [Effect.sendReply GENERATING_RESPONSE,
        Effect.generate model (GenContents.chat contents) false,
        Effect.editMessage respText])
  | none =>
      ({ s with conversations := fun v => if v = uid then stored1 else s.conversations v },
       [Effect.sendReply GENERATING_RESPONSE,
        Effect.generate model (GenContents.chat contents) false,
        Effect.sendReply ERROR_INFO])

/-- `process_photo(update, context)` for a photo from user `uid` in a chat of
type `chatType`, with `downloaded = some bytes` when the Telegram file
download succeeded (and `none` when it raised, landing in the `except`
block), caption `caption`, and backend outcome `genResult`.  The model is
chosen by chat type alone (lines 174-178); the multipart body always
declares `"mime_type": "image/jpeg"` (line 204); the generation call goes
through `async_generate_content` (line 212); neither table of the global
state is written. -/
def process_photo (s : BotState) (uid : UserId) (chatType : String)
    (downloaded : Option (List Nat)) (caption : Option String)
    (genResult : Option String) : BotState × List Effect :=
  let model := if chatType ≠ "private" then ModelChoice.flash else ModelChoice.pro
  match downloaded with
  | none =>
      (s, [Effect.sendReply "Image received", Effect.sendReply ERROR_INFO])
  | some data =>
      let promptParts : List String :=
        ["Image caption:\n", (match caption with | some c => pyStrip c | none => ""), "\n"]
      let contents := GenContents.multipart "image/jpeg" data (String.join promptParts)
      match genResult with
      | some respText =>
          (s, [Effect.sendReply "Image received",
               Effect.editMessage GENERATING_RESPONSE,
               async_generate_content model contents,
               Effect.editMessage respText])
      | none =>
          (s, [Effect.sendReply "Image received",
               Effect.editMessage GENERATING_RESPONSE,
               async_generate_content model contents,
               Effect.sendReply ERROR_INFO])

/-- `clear(update, context)`: `conversations[user_id].clear()` empties the
per-user list in place (the defaultdict lookup materialises an empty entry
for an absent key, which `clear` leaves empty), then a confirmation is
sent. -/
def clear (s : BotState) (uid : UserId) : BotState × List Effect :=
  ({ s with conversations := fun v => if v = uid then [] else s.conversations v },
   [Effect.sendReply "Your history has been cleared"])

/-- `switch(update, context)` in a chat of type `chatType`: outside a private
chat it replies with the rejection text and returns before touching any
state; in a private chat it flips `default_model_dict[user_id]` between
`gemini_pro_model` and `gemini_flash_model` and confirms the new model by
name. -/
def switch (s : BotState) (uid : UserId) (chatType : String) : BotState × List Effect :=
  if chatType ≠ "private" then
    (s, [Effect.sendReply "This command is only for private chat!"])
  else
    let current := s.modelDict uid
    if current = ModelChoice.pro then
      ({ s with modelDict := fun v => if v = uid then ModelChoice.flash else s.modelDict v },
       [Effect.sendReply "Now you are using gemini-1.5-flash"])
    else
      ({ s with modelDict := fun v => if v = uid then ModelChoice.pro else s.modelDict v },
       [Effect.sendReply "Now you are using gemini-1.5-pro"])

/-- The confirmation text `switch` sends when it installs a given model. -/
def confirmText : ModelChoice → String
  | ModelChoice.flash => "Now you are using gemini-1.5-flash"
  | ModelChoice.pro => "Now you are using gemini-1.5-pro"

/-- `n` consecutive text flows for user `0`, message `"hi"`, each of whose
backend generation call fails, starting from the fresh-process state. -/
def failTextFlows : Nat → BotState
  | 0 => initState
  | n + 1 => (process_text (failTextFlows n) 0 "hi" none).1

/-- The model of the first `generate` effect of a trace, if any. -/
def genModelOf : List Effect → Option ModelChoice
  | [] => none
  | Effect.generate m _ _ :: _ => some m
  | _ :: rest => genModelOf rest

/-- The mime types declared by the multipart `generate` effects of a trace,
in order. -/
def multipartMimes : List Effect → List String
  | [] => []
  | Effect.generate _ (GenContents.multipart mt _ _) _ :: rest => mt :: multipartMimes rest
  | _ :: rest => multipartMimes rest

-- ### Helper lemmas

/-- Each failing text flow appends exactly one (user) turn to the stored
history of user 0 and never truncates it: the `history = history[-MAX_HISTORY:]`
slice rebinds a local name, and the truncated copy is only written back on
the success path, so on the failure path the in-place append is what
persists. -/
theorem failTextFlows_length (n : Nat) :
    ((failTextFlows n).conversations 0).length = n := by
  induction n with
  | zero => rfl
  | succ k ih =>
      simp [failTextFlows, process_text, ih]

-- ### Claims

/-- Claim C1: the spec asserts that every user's stored history never
exceeds `MAX_HISTORY` entries, including flows ending in generation failure.
The code violates this: after 51 text flows whose generation calls fail, the
stored history of the user holds 51 > `MAX_HISTORY` = 50 turns, because the
truncating slice only rebinds a local name and its result is persisted only
on the success path, while the user-turn append mutates the stored list in
place. -/
theorem C1_history_bound_violated :
    MAX_HISTORY = 50 ∧ ((failTextFlows 51).conversations 0).length = 51 := by
  exact ⟨rfl, failTextFlows_length 51⟩

/-- Claim C2: the spec asserts that the backend receives the new user
message exactly once, as the final turn of the submitted history.  The code
violates this: the chat session is seeded with the history that already ends
with the appended user turn, and `send_message(user_message)` then appends
the same message again, so at the concrete input (fresh state, user 0,
message `"hi"`, successful generation) the submitted chat contents are two
copies of the user turn and the message occurs twice. -/
theorem C2_user_message_sent_twice :
    (process_text initState 0 "hi" (some "ok")).2 =
      [Effect.sendReply GENERATING_RESPONSE,
       Effect.generate ModelChoice.pro
         (GenContents.chat [⟨Role.user, ["hi"]⟩, ⟨Role.user, ["hi"]⟩]) false,
       Effect.editMessage "ok"] ∧
    List.count (⟨Role.user, ["hi"]⟩ : Turn)
      (submitted_contents (sliceLast MAX_HISTORY [⟨Role.user, ["hi"]⟩]) "hi") = 2 := by
  constructor
  · rfl
  · rfl

/-- Claim C3: the spec asserts that the blocking generation call of every
text flow is dispatched off the coordinating event loop (to a worker pool).
The code violates this: `process_text` calls `chat_session.send_message`
directly in the handler — the emitted generation effect always carries
`viaExecutor = false` — while the executor-offloading wrapper
`async_generate_content` is only used on the photo path. -/
theorem C3_text_generation_not_offloaded (s : BotState) (uid : UserId)
    (msg : String) (genResult : Option String) :
    ((process_text s uid msg genResult).2).get? 1 =
      some (Effect.generate (s.modelDict uid)
        (GenContents.chat (submitted_contents
          (sliceLast MAX_HISTORY (s.conversations uid ++ [⟨Role.user, [pyStrip msg]⟩])) msg))
        false) := by
  cases genResult <;> rfl

/-- Claim C4: when the backend generation call of a text flow fails, the
user's stored history afterwards is exactly the prior history extended by
the just-appended USER turn (so its most recent entry is that USER turn and
no MODEL turn was appended), and the fixed error notice `ERROR_INFO` is sent
as a new reply message; the handler's `except` block absorbs the failure, so
the flow still returns a state and a trace. -/
theorem C4_generation_failure_preserves_history (s : BotState) (uid : UserId)
    (msg : String) :
    (process_text s uid msg none).1.conversations uid
        = s.conversations uid ++ [⟨Role.user, [pyStrip msg]⟩]
    ∧ ((process_text s uid msg none).1.conversations uid).getLast? =
        some ⟨Role.user, [pyStrip msg]⟩
    ∧ (process_text s uid msg none).2 =
        [Effect.sendReply GENERATING_RESPONSE,
         Effect.generate (s.modelDict uid)
           (GenContents.chat (submitted_contents
             (sliceLast MAX_HISTORY (s.conversations uid ++ [⟨Role.user, [pyStrip msg]⟩])) msg))
           false,
         Effect.sendReply ERROR_INFO] := by
  refine ⟨?_, ?_, rfl⟩
  · simp [process_text]
  · simp [process_text]

/-- Claim C5: in a private chat, `switch` toggles the stored per-user model
choice between the two profiles: two applications restore the original
choice, one application changes it (to the only other profile), and each
application replies with the confirmation naming the model it just
installed. -/
theorem C5_switch_involution_private (s : BotState) (uid : UserId) :
    ((switch (switch s uid "private").1 uid "private").1).modelDict uid = s.modelDict uid
    ∧ (switch s uid "private").1.modelDict uid ≠ s.modelDict uid
    ∧ (switch s uid "private").2 =
        [Effect.sendReply (confirmText ((switch s uid "private").1.modelDict uid))]
    ∧ (switch (switch s uid "private").1 uid "private").2 =
        [Effect.sendReply
          (confirmText (((switch (switch s uid "private").1 uid "private").1).modelDict uid))] := by
  cases h : s.modelDict uid <;> simp [switch, h, confirmText]

/-- Claim C6: `switch` invoked outside a private chat replies with the
rejection text and returns before touching any state, so the whole state
(in particular the user's model choice) is unchanged; and an unset entry of
`default_model_dict` defaults to `gemini_pro_model`, the CAPABLE profile. -/
theorem C6_switch_group_noop (s : BotState) (uid : UserId) (chatType : String)
    (h : chatType ≠ "private") :
    (switch s uid chatType).1 = s
    ∧ (switch s uid chatType).2 = [Effect.sendReply "This command is only for private chat!"]
    ∧ initState.modelDict uid = ModelChoice.pro := by
  simp [switch, h, initState]

/-- Witness for C6 at the concrete input: fresh state, user 0, chat type
`"group"`. -/
theorem C6_switch_group_noop_witness :
    (switch initState 0 "group").1 = initState
    ∧ (switch initState 0 "group").2 = [Effect.sendReply "This command is only for private chat!"]
    ∧ initState.modelDict 0 = ModelChoice.pro :=
  C6_switch_group_noop initState 0 "group" (by decide)

/-- Claim C7: the profile used for a photo event is chosen by the context
type alone — `gemini_pro_model` (CAPABLE) in a private chat,
`gemini_flash_model` (FAST) otherwise — and the emitted trace is identical
for any two global states, so it is independent of the user's stored model
choice. -/
theorem C7_photo_model_by_context (s t : BotState) (uid : UserId) (ct : String)
    (data : List Nat) (caption : Option String) (genResult : Option String) :
    genModelOf (process_photo s uid ct (some data) caption genResult).2 =
        some (if ct = "private" then ModelChoice.pro else ModelChoice.flash)
    ∧ (process_photo s uid ct (some data) caption genResult).2 =
        (process_photo t uid ct (some data) caption genResult).2 := by
  constructor
  · by_cases h : ct = "private" <;> cases genResult <;>
      simp [process_photo, genModelOf, async_generate_content, h]
  · cases genResult <;> rfl

/-- Claim C8: a photo flow never writes `conversations`: whatever the
outcome of the download and of the generation call, the stored history table
after `process_photo` equals the one before. -/
theorem C8_photo_never_mutates_history (s : BotState) (uid : UserId) (ct : String)
    (downloaded : Option (List Nat)) (caption : Option String) (genResult : Option String) :
    (process_photo s uid ct downloaded caption genResult).1.conversations = s.conversations := by
  cases downloaded <;> cases genResult <;> rfl

/-- Claim C9: `clear(user)` followed by `get(user)` yields the empty
sequence whatever was stored before, and `clear` twice in a row produces
exactly the state (and the same reply) that one `clear` produces. -/
theorem C9_clear_idempotent (s : BotState) (uid : UserId) :
    (clear s uid).1.conversations uid = []
    ∧ (clear (clear s uid).1 uid).1 = (clear s uid).1
    ∧ (clear (clear s uid).1 uid).2 = (clear s uid).2 := by
  refine ⟨by simp [clear], ?_, rfl⟩
  have hc : (clear (clear s uid).1 uid).1.conversations = (clear s uid).1.conversations := by
    funext v
    by_cases h : v = uid <;> simp [clear, h]
  exact BotState.ext hc rfl

/-- Claim C10: every multipart request a photo flow submits to the backend
declares the mime type `"image/jpeg"`, for every state, context type,
downloaded byte content, caption and generation outcome (and when the
download fails, no request is submitted at all). -/
theorem C10_photo_mime_always_jpeg (s : BotState) (uid : UserId) (ct : String)
    (data : List Nat) (caption : Option String) (genResult : Option String) :
    multipartMimes (process_photo s uid ct (some data) caption genResult).2 = ["image/jpeg"]
    ∧ multipartMimes (process_photo s uid ct none caption genResult).2 = [] := by
  cases genResult <;> exact ⟨rfl, rfl⟩
